import Mathlib

/-!
Verification development for the rpc-server front-door gateway
(`src/rpc-server/src/server.rs`): the `Server` construction/start path and
the request-dispatch layer (`MultiplexService`) it serves.

Modelling conventions:
* `Arc<T>` is modelled as `T` itself; `Arc::clone` is the identity, so
  pointer identity of clones of one `Arc` becomes value equality.
* `anyhow::Result<T>` is modelled as `Except String T`.
* Collaborators outside the visible source (route initializers, the
  bind/serve transport, the dispatch service) appear either as explicit
  function parameters of `Server.start` or as definitions modelled from
  the specification; each such definition says so in its doc comment.
-/

namespace Ursa

/-- A request: method, target path, headers and body (spec data model). -/
structure Request where
  method : String
  path : String
  headers : List (String × String)
  body : List Nat
deriving DecidableEq

/-- A response: status code, headers and body (spec data model). -/
structure Response where
  status : Nat
  headers : List (String × String)
  body : List Nat
deriving DecidableEq

/-- A Stack descriptor: name, predicate over the request, and a fallible
handler, as in the spec data model. -/
structure Stack where
  name : String
  predicate : Request → Bool
  handle : Request → Except String Response

/-- Modelled from the spec: the synthesized 404-equivalent response the
dispatcher produces when no Stack predicate matches. -/
def notFoundResponse : Response :=
  { status := 404, headers := [], body := [] }

/-- Modelled from the spec: the synthesized 500-equivalent response the
dispatcher produces when the matched Stack's handler fails. -/
def serverErrorResponse : Response :=
  { status := 500, headers := [], body := [] }

/-- Modelled from the spec: outcome normalization at the dispatch
boundary — a handler success passes through unchanged, a handler failure
becomes the synthesized 500-equivalent and is never re-raised. -/
def normalizeOutcome : Except String Response → Response
  | Except.ok r => r
  | Except.error _ => serverErrorResponse

/-- Modelled from the spec: the dispatch algorithm of `MultiplexService`
(`src/rpc-server/src/service.rs`, not among the visible sources): iterate
the registered Stacks in registration order; at the first whose predicate
is true, invoke its handler and normalize its outcome; with no match,
synthesize the 404-equivalent. The second component records which Stacks
were invoked. -/
def dispatchTrace : List Stack → Request → Response × List Stack
  | [], _ => (notFoundResponse, [])
  | s :: rest, req =>
    if s.predicate req then (normalizeOutcome (s.handle req), [s])
    else dispatchTrace rest req

/-- The response produced by dispatching a request over the Stack list. -/
def dispatch (sl : List Stack) (req : Request) : Response :=
  (dispatchTrace sl req).1

/-- The Stacks whose handler was invoked while dispatching the request. -/
def invoked (sl : List Stack) (req : Request) : List Stack :=
  (dispatchTrace sl req).2

/-- The first Stack (in registration order) whose predicate matches. -/
def matchedStack (sl : List Stack) (req : Request) : Option Stack :=
  sl.find? (fun s => s.predicate req)

/-- Modelled from the spec: `MultiplexService` holds the two pipelines
handed to `MultiplexService::new(http, rpc_router)` in `Server::start`. -/
structure MultiplexService where
  http : Stack
  rpc : Stack

/-- Modelled from the spec: `MultiplexService::new`. -/
def MultiplexService.new (http rpc_router : Stack) : MultiplexService :=
  { http := http, rpc := rpc_router }

/-- The registered Stacks in registration order: the http pipeline was
handed to `MultiplexService::new` first, the rpc pipeline second. -/
def MultiplexService.stacks (m : MultiplexService) : List Stack :=
  [m.http, m.rpc]

/-- Dispatch a request through the multiplexed service. -/
def MultiplexService.dispatch (m : MultiplexService) (req : Request) : Response :=
  Ursa.dispatch m.stacks req

/-- Modelled from the spec: `ServerConfig` (`config.rs`, not among the
visible sources); the test constructs it with a `port` and an `addr`. -/
structure ServerConfig where
  port : Nat
  addr : String
deriving DecidableEq

/-- Modelled from the spec: `NodeNetworkInterface` (`api.rs`, not among
the visible sources); the test constructs it from a store handle and a
network command sender, both opaque to this layer. -/
structure NodeNetworkInterface where
  store : Nat
  network_send : Nat
deriving DecidableEq

/-- Modelled from the spec: `RpcServer` (`rpc/rpc.rs`, not among the
visible sources); its constructor receives the config and a clone of the
shared `NodeNetworkInterface` handle, which it keeps as Stack B's shared
context. -/
structure RpcServer where
  config : ServerConfig
  interface : NodeNetworkInterface
deriving DecidableEq

/-- Modelled from the spec: `RpcServer::new(&config, Arc::clone(&interface))`. -/
def RpcServer.new (config : ServerConfig) (interface : NodeNetworkInterface) : RpcServer :=
  { config := config, interface := interface }

/-- `Server<S>`: holds the `RpcServer` and the shared interface handle
(`server.rs` lines 15-21). -/
structure Server where
  rpc_server : RpcServer
  interface : NodeNetworkInterface
deriving DecidableEq

/-- `Server::new` (`server.rs` lines 27-32): builds the `RpcServer` from
the config and a clone of the interface `Arc`, and stores another clone
of the same `Arc`. -/
def Server.new (config : ServerConfig) (interface : NodeNetworkInterface) : Server :=
  { rpc_server := RpcServer.new config interface
    interface := interface }

/-- A socket address: four IPv4 octets and a port. -/
structure SockAddr where
  ip : Nat × Nat × Nat × Nat
  port : Nat
deriving DecidableEq

/-- The all-interfaces IPv4 address `[0, 0, 0, 0]` hard-coded in
`Server::start`. -/
def allInterfaces : Nat × Nat × Nat × Nat := (0, 0, 0, 0)

/-- Dotted-quad rendering of an IPv4 address, to compare the bound
address with the `addr` string of a `ServerConfig`. -/
def ipDisplay : Nat × Nat × Nat × Nat → String
  | (a, b, c, d) =>
    toString a ++ "." ++ toString b ++ "." ++ toString c ++ "." ++ toString d

/-- Observable effects of one `Server::start` call: every address handed
to `axum::Server::bind`, every service handed to `serve`, and the
`Result` value `start` returns. -/
structure StartTrace where
  bindCalls : List SockAddr
  servedCalls : List MultiplexService
  service : MultiplexService
  result : Except String Unit

/-- `Server::start` (`server.rs` lines 34-54). The route initializers
(`rpc::routes::network::init` plus the `Extension(self.rpc_server.clone())`
layer, and `http::routes::network::init` plus the
`Extension(self.interface.clone())` layer) and the transport outcomes of
`axum::Server::bind` and `.serve(...)` are external to the visible source
and are passed as parameters. The address is built from
`([0, 0, 0, 0], config.port)`; the service is
`MultiplexService::new(http, rpc_router)`; a bind failure aborts before
serving, otherwise the serve outcome is propagated by the trailing `?`. -/
def Server.start (s : Server) (config : ServerConfig)
    (rpcInit : RpcServer → Stack) (httpInit : NodeNetworkInterface → Stack)
    (bind : SockAddr → Except String Unit)
    (serve : MultiplexService → Except String Unit) : StartTrace :=
  let rpc_router := rpcInit s.rpc_server
  let http := httpInit s.interface
  let http_address : SockAddr := { ip := allInterfaces, port := config.port }
  let service := MultiplexService.new http rpc_router
  match bind http_address with
  | Except.error e =>
    { bindCalls := [http_address], servedCalls := [], service := service
      result := Except.error e }
  | Except.ok _ =>
    { bindCalls := [http_address], servedCalls := [service], service := service
      result := serve service }

/-! Concrete fixtures used by witnesses and counterexamples, following the
spec's scenario: a health pipeline on path `/health` and an rpc pipeline
on path `/rpc`. -/

/-- A request targeting the health pipeline. -/
def reqHealth : Request :=
  { method := "GET", path := "/health", headers := [], body := [] }

/-- A request targeting the rpc pipeline. -/
def reqRpc : Request :=
  { method := "POST", path := "/rpc", headers := [], body := [] }

/-- A request matching neither pipeline. -/
def reqUnknown : Request :=
  { method := "GET", path := "/unknown", headers := [], body := [] }

/-- A health pipeline Stack whose handler succeeds. -/
def stackA : Stack :=
  { name := "http"
    predicate := fun r => r.path == "/health"
    handle := fun _ => Except.ok { status := 200, headers := [], body := [1] } }

/-- An rpc pipeline Stack whose handler succeeds. -/
def stackB : Stack :=
  { name := "rpc"
    predicate := fun r => r.path == "/rpc"
    handle := fun _ => Except.ok { status := 200, headers := [], body := [2] } }

/-- A pipeline Stack whose handler always fails. -/
def stackFail : Stack :=
  { name := "failing"
    predicate := fun r => r.path == "/health"
    handle := fun _ => Except.error "handler panicked" }

/-- Dispatch resolved through the first matching Stack: the trace equals
the normalized outcome of the first Stack whose predicate matches, and
records exactly that Stack as invoked. -/
theorem dispatchTrace_eq_matched (sl : List Stack) (req : Request) :
    dispatchTrace sl req =
      match matchedStack sl req with
      | none => (notFoundResponse, [])
      | some s => (normalizeOutcome (s.handle req), [s]) := by
  induction sl with
  | nil => rfl
  | cons s rest ih =>
    cases h : s.predicate req with
    | true =>
      simp [dispatchTrace, h, matchedStack, List.find?_cons_of_pos]
    | false =>
      have hm : matchedStack (s :: rest) req = matchedStack rest req := by
        simp [matchedStack, List.find?_cons_of_neg, h]
      simp [dispatchTrace, h, hm, ih]

/-- C1: for every Request dispatched through the two Stacks registered
with `MultiplexService` for which some predicate matches, exactly one
Stack is invoked, it is the first (in registration order) whose
predicate matches, and every invoked Stack matched the Request. -/
theorem multiplex_first_match_only (A B : Stack) (req : Request)
    (h : A.predicate req = true ∨ B.predicate req = true) :
    (invoked (MultiplexService.new A B).stacks req
        = [if A.predicate req then A else B] ∧
      (invoked (MultiplexService.new A B).stacks req).length = 1) ∧
    ∀ s ∈ invoked (MultiplexService.new A B).stacks req,
      s.predicate req = true := by
  cases hA : A.predicate req with
  | true =>
    refine ⟨⟨?_, ?_⟩, ?_⟩ <;>
      simp [invoked, dispatchTrace, MultiplexService.new, MultiplexService.stacks, hA]
  | false =>
    cases hB : B.predicate req with
    | true =>
      refine ⟨⟨?_, ?_⟩, ?_⟩ <;>
        simp [invoked, dispatchTrace, MultiplexService.new, MultiplexService.stacks, hA, hB]
    | false =>
      rw [hA, hB] at h
      simp at h

/-- C1 witness: at the concrete health request, the http Stack matches
first and is the only Stack invoked. -/
theorem multiplex_first_match_only_witness :
    (stackA.predicate reqHealth = true ∨ stackB.predicate reqHealth = true) ∧
    ((invoked (MultiplexService.new stackA stackB).stacks reqHealth
        = [if stackA.predicate reqHealth then stackA else stackB] ∧
      (invoked (MultiplexService.new stackA stackB).stacks reqHealth).length = 1) ∧
    ∀ s ∈ invoked (MultiplexService.new stackA stackB).stacks reqHealth,
      s.predicate reqHealth = true) :=
  ⟨Or.inl (by decide),
    multiplex_first_match_only stackA stackB reqHealth (Or.inl (by decide))⟩

/-- C2: when the matched Stack's handler fails, dispatch returns the
synthesized 500-equivalent server-error Response (and, being a total
function into `Response`, re-raises nothing to its caller). -/
theorem multiplex_handler_failure_500 (A B : Stack) (req : Request)
    (s : Stack) (e : String)
    (hs : matchedStack (MultiplexService.new A B).stacks req = some s)
    (he : s.handle req = Except.error e) :
    (MultiplexService.new A B).dispatch req = serverErrorResponse ∧
    ((MultiplexService.new A B).dispatch req).status = 500 := by
  have hd := dispatchTrace_eq_matched (MultiplexService.new A B).stacks req
  rw [hs] at hd
  have hr : (MultiplexService.new A B).dispatch req = serverErrorResponse := by
    simp [MultiplexService.dispatch, dispatch, hd, he, normalizeOutcome]
  exact ⟨hr, by rw [hr]; rfl⟩

/-- C2 witness: a failing health Stack matched by the health request
produces the 500-equivalent response. -/
theorem multiplex_handler_failure_500_witness :
    (matchedStack (MultiplexService.new stackFail stackB).stacks reqHealth
        = some stackFail ∧
      stackFail.handle reqHealth = Except.error "handler panicked") ∧
    ((MultiplexService.new stackFail stackB).dispatch reqHealth
        = serverErrorResponse ∧
      ((MultiplexService.new stackFail stackB).dispatch reqHealth).status = 500) :=
  ⟨⟨rfl, rfl⟩,
    multiplex_handler_failure_500 stackFail stackB reqHealth stackFail
      "handler panicked" rfl rfl⟩

/-- C3: a Request matching neither registered Stack gets the synthesized
404-equivalent not-found Response, and no Stack handler is invoked. -/
theorem multiplex_no_match_404 (A B : Stack) (req : Request)
    (hA : A.predicate req = false) (hB : B.predicate req = false) :
    (MultiplexService.new A B).dispatch req = notFoundResponse ∧
    invoked (MultiplexService.new A B).stacks req = [] := by
  constructor <;>
    simp [MultiplexService.dispatch, dispatch, invoked,
      MultiplexService.new, MultiplexService.stacks, dispatchTrace, hA, hB]

/-- C3 witness: the unknown request matches neither pipeline, receives
the 404-equivalent, and invokes no handler. -/
theorem multiplex_no_match_404_witness :
    (stackA.predicate reqUnknown = false ∧ stackB.predicate reqUnknown = false) ∧
    ((MultiplexService.new stackA stackB).dispatch reqUnknown = notFoundResponse ∧
      invoked (MultiplexService.new stackA stackB).stacks reqUnknown = []) :=
  ⟨⟨by decide, by decide⟩,
    multiplex_no_match_404 stackA stackB reqUnknown (by decide) (by decide)⟩

/-- A concrete server configuration, as in the repository's test. -/
def cfg0 : ServerConfig := { port := 4069, addr := "0.0.0.0" }

/-- A configuration whose addr field names the loopback address. -/
def cfgLoopback : ServerConfig := { port := 4069, addr := "127.0.0.1" }

/-- A concrete shared interface handle. -/
def iface0 : NodeNetworkInterface := { store := 0, network_send := 0 }

/-- A concrete server, built as in the repository's test. -/
def srv0 : Server := Server.new cfg0 iface0

/-- A concrete rpc route initializer. -/
def rpcInit0 : RpcServer → Stack := fun _ => stackB

/-- A concrete http route initializer. -/
def httpInit0 : NodeNetworkInterface → Stack := fun _ => stackA

/-- A transport in which binding always succeeds. -/
def bindOk0 : SockAddr → Except String Unit := fun _ => Except.ok ()

/-- A transport in which the serve loop fails. -/
def serveFail0 : MultiplexService → Except String Unit :=
  fun _ => Except.error "accept failed"

/-- A transport in which the serve loop runs without error. -/
def serveOk0 : MultiplexService → Except String Unit := fun _ => Except.ok ()

/-- C4 counterexample: with binding succeeding at the bound address and
the serve loop returning an error, `Server::start` still fails — the
trailing question-mark operator propagates serve errors exactly like
bind errors, so binding failure is not the only error class that aborts
the server. -/
theorem start_serve_error_escapes :
    bindOk0 { ip := allInterfaces, port := cfg0.port } = Except.ok () ∧
    (srv0.start cfg0 rpcInit0 httpInit0 bindOk0 serveFail0).result
      = Except.error "accept failed" :=
  ⟨rfl, rfl⟩

/-- C4 (amended): a binding failure makes `Server::start` fail without
ever serving, and `start` succeeds exactly when both binding and the
serve loop succeed — so bind failure is the only error that prevents
serving, but a serve-loop error is propagated to the caller as well. -/
theorem start_failure_characterization (s : Server) (config : ServerConfig)
    (rpcInit : RpcServer → Stack) (httpInit : NodeNetworkInterface → Stack)
    (bind : SockAddr → Except String Unit)
    (serve : MultiplexService → Except String Unit) :
    (Server.start s config rpcInit httpInit bind serve).result
      = (match bind { ip := allInterfaces, port := config.port } with
         | Except.error e => Except.error e
         | Except.ok _ =>
           serve (MultiplexService.new (httpInit s.interface)
             (rpcInit s.rpc_server))) ∧
    (Server.start s config rpcInit httpInit bind serve).servedCalls
      = (match bind { ip := allInterfaces, port := config.port } with
         | Except.error _ => []
         | Except.ok _ =>
           [MultiplexService.new (httpInit s.interface)
             (rpcInit s.rpc_server)]) := by
  cases hb : bind { ip := allInterfaces, port := config.port } with
  | error e => constructor <;> simp [Server.start, hb]
  | ok u => constructor <;> simp [Server.start, hb]

/-- C5: `Server::start` hands exactly one socket address to bind, and the
one service it serves there is the multiplex of both pipelines — the
http pipeline and the rpc pipeline share the single listening port. -/
theorem start_single_port_both_pipelines (s : Server) (config : ServerConfig)
    (rpcInit : RpcServer → Stack) (httpInit : NodeNetworkInterface → Stack)
    (bind : SockAddr → Except String Unit)
    (serve : MultiplexService → Except String Unit) :
    (Server.start s config rpcInit httpInit bind serve).bindCalls.length = 1 ∧
    (Server.start s config rpcInit httpInit bind serve).service
      = MultiplexService.new (httpInit s.interface) (rpcInit s.rpc_server) ∧
    (Server.start s config rpcInit httpInit bind serve).service.stacks
      = [httpInit s.interface, rpcInit s.rpc_server] := by
  cases hb : bind { ip := allInterfaces, port := config.port } with
  | error e =>
    refine ⟨?_, ?_, ?_⟩ <;>
      simp [Server.start, hb, MultiplexService.new, MultiplexService.stacks]
  | ok u =>
    refine ⟨?_, ?_, ?_⟩ <;>
      simp [Server.start, hb, MultiplexService.new, MultiplexService.stacks]

/-- C6 counterexample: started with a configuration whose addr field is
"127.0.0.1", the server still binds 0.0.0.0 on the configured port — the
bound socket address is not the address given in the configuration. -/
theorem bind_ignores_config_addr :
    ((Server.new cfgLoopback iface0).start cfgLoopback rpcInit0 httpInit0
        bindOk0 serveOk0).bindCalls
      = [{ ip := allInterfaces, port := 4069 }] ∧
    ipDisplay allInterfaces ≠ cfgLoopback.addr :=
  ⟨rfl, by decide⟩

/-- Helper: the addresses `start` hands to bind, for any server,
configuration and transport. -/
theorem start_bindCalls_eq (s : Server) (config : ServerConfig)
    (rpcInit : RpcServer → Stack) (httpInit : NodeNetworkInterface → Stack)
    (bind : SockAddr → Except String Unit)
    (serve : MultiplexService → Except String Unit) :
    (Server.start s config rpcInit httpInit bind serve).bindCalls
      = [{ ip := allInterfaces, port := config.port }] := by
  cases hb : bind { ip := allInterfaces, port := config.port } with
  | error e => simp [Server.start, hb]
  | ok u => simp [Server.start, hb]

/-- C6 (amended): the listener binds all interfaces (0.0.0.0) on the
port of the configuration passed to `Server::start`; the addr field of
the configuration does not influence the bound socket address. -/
theorem bind_all_interfaces_config_port (s : Server) (config : ServerConfig)
    (rpcInit : RpcServer → Stack) (httpInit : NodeNetworkInterface → Stack)
    (bind : SockAddr → Except String Unit)
    (serve : MultiplexService → Except String Unit) :
    (Server.start s config rpcInit httpInit bind serve).bindCalls
      = [{ ip := allInterfaces, port := config.port }] :=
  start_bindCalls_eq s config rpcInit httpInit bind serve

/-- C8: the Stacks a server dispatches to are a function of the state
fixed at `Server::new` alone — every `start` of the same server, with
any configuration and any transport, materializes the same multiplexed
service, built from the stored `RpcServer` and interface handle. -/
theorem stacks_fixed_at_new (config : ServerConfig)
    (i : NodeNetworkInterface)
    (rpcInit : RpcServer → Stack) (httpInit : NodeNetworkInterface → Stack)
    (cfg1 cfg2 : ServerConfig)
    (bind1 bind2 : SockAddr → Except String Unit)
    (serve1 serve2 : MultiplexService → Except String Unit) :
    ((Server.new config i).start cfg1 rpcInit httpInit bind1 serve1).service
      = MultiplexService.new (httpInit i) (rpcInit (RpcServer.new config i)) ∧
    ((Server.new config i).start cfg1 rpcInit httpInit bind1 serve1).service
      = ((Server.new config i).start cfg2 rpcInit httpInit bind2 serve2).service := by
  have h1 : ∀ (cfg : ServerConfig) (bind : SockAddr → Except String Unit)
      (serve : MultiplexService → Except String Unit),
      ((Server.new config i).start cfg rpcInit httpInit bind serve).service
        = MultiplexService.new (httpInit i) (rpcInit (RpcServer.new config i)) := by
    intro cfg bind serve
    cases hb : bind { ip := allInterfaces, port := cfg.port } with
    | error e => simp [Server.start, Server.new, hb]
    | ok u => simp [Server.start, Server.new, hb]
  exact ⟨h1 cfg1 bind1 serve1, by rw [h1 cfg1 bind1 serve1, h1 cfg2 bind2 serve2]⟩

/-- C9: both pipelines' shared contexts refer to one and the same
interface handle — `Server::new` stores the handle it was given and
hands the `RpcServer` a clone of that same handle, and `start` passes
those stored, unmodified handles to the two pipeline initializers. -/
theorem shared_context_single_interface (config : ServerConfig)
    (i : NodeNetworkInterface) (cfg : ServerConfig)
    (rpcInit : RpcServer → Stack) (httpInit : NodeNetworkInterface → Stack)
    (bind : SockAddr → Except String Unit)
    (serve : MultiplexService → Except String Unit) :
    (Server.new config i).rpc_server.interface = i ∧
    (Server.new config i).interface = i ∧
    ((Server.new config i).start cfg rpcInit httpInit bind serve).service
      = MultiplexService.new (httpInit i) (rpcInit (RpcServer.new config i)) := by
  refine ⟨rfl, rfl, ?_⟩
  cases hb : bind { ip := allInterfaces, port := cfg.port } with
  | error e => simp [Server.start, Server.new, hb]
  | ok u => simp [Server.start, Server.new, hb]

/-- C10: the socket address `Server::start` binds depends only on the
port of the configuration passed to `start` — servers built with any
configurations and interfaces, started with configurations agreeing on
the port, bind the identical address. -/
theorem bound_addr_port_only (c1 c2 : ServerConfig)
    (i1 i2 : NodeNetworkInterface) (cfgA cfgB : ServerConfig)
    (rpcInit : RpcServer → Stack) (httpInit : NodeNetworkInterface → Stack)
    (bind : SockAddr → Except String Unit)
    (serve : MultiplexService → Except String Unit)
    (h : cfgA.port = cfgB.port) :
    ((Server.new c1 i1).start cfgA rpcInit httpInit bind serve).bindCalls
      = ((Server.new c2 i2).start cfgB rpcInit httpInit bind serve).bindCalls := by
  rw [start_bindCalls_eq, start_bindCalls_eq, h]

/-- C10 witness: servers built with the test configuration and with the
loopback configuration, started with the other configuration (equal
ports, different addr fields), bind the same address. -/
theorem bound_addr_port_only_witness :
    cfgLoopback.port = cfg0.port ∧
    ((Server.new cfg0 iface0).start cfgLoopback rpcInit0 httpInit0
        bindOk0 serveOk0).bindCalls
      = ((Server.new cfgLoopback iface0).start cfg0 rpcInit0 httpInit0
        bindOk0 serveOk0).bindCalls :=
  ⟨rfl, bound_addr_port_only cfg0 cfgLoopback iface0 iface0 cfgLoopback cfg0
    rpcInit0 httpInit0 bindOk0 serveOk0 rfl⟩

end Ursa
